import Mathlib

/-!
# Resume optimizer backend: the analyze workflow and the login route

A shallow embedding of `server.js` (the scorer client `getAtsAnalysis`, the
document extractor `parseDocument` and the `POST /api/analyze` handler) and of
`routes/auth.js` (the `signup` and `login` handlers).

JavaScript strings are sequences of UTF-16 code units, so a string is a list
of code units here: `length` is the length of the list, `trim` and the
fence-stripping regular expression work on code units.  Calls that leave the
process (the PDF and DOCX libraries, the chat completion, the database, the
password hash and the token signature) are answered by an environment value
that holds the outcome of each call for the request at hand.
-/

namespace ResumeOptimizer

/-! ## Strings -/

/-- A JavaScript string: its UTF-16 code units. -/
abbrev JsString := List Nat

/-- The UTF-16 code units of one Unicode scalar value. -/
def utf16Units (c : Char) : List Nat :=
  if c.toNat < 0x10000 then [c.toNat]
  else [0xD800 + (c.toNat - 0x10000) / 0x400, 0xDC00 + (c.toNat - 0x10000) % 0x400]

/-- The JavaScript string written by a literal. -/
def utf16 (s : String) : JsString :=
  s.toList.foldr (fun c acc => utf16Units c ++ acc) []

/-- The code units removed by `String.prototype.trim`: ECMAScript WhiteSpace
(TAB, VT, FF, ZWNBSP and the space separators) and LineTerminator
(LF, CR, LS, PS). -/
def isWhiteSpace (u : Nat) : Bool :=
  u == 0x09 || u == 0x0A || u == 0x0B || u == 0x0C || u == 0x0D || u == 0x20 ||
  u == 0xA0 || u == 0x1680 || (0x2000 ≤ u && u ≤ 0x200A) || u == 0x2028 ||
  u == 0x2029 || u == 0x202F || u == 0x205F || u == 0x3000 || u == 0xFEFF

/-- Leading white space removed. -/
def trimStart (s : JsString) : JsString := s.dropWhile isWhiteSpace

/-- Trailing white space removed. -/
def trimEnd (s : JsString) : JsString := (s.reverse.dropWhile isWhiteSpace).reverse

/-- The method `String.prototype.trim`. -/
def trim (s : JsString) : JsString := trimEnd (trimStart s)

/-! ## The fence-stripping regular expression of `getAtsAnalysis`

`raw.replace(/```(?:json)?\n?|\n?```/g, "")`: every match, found from left to
right, is deleted. -/

/-- Three backticks. -/
def ticks : JsString := [96, 96, 96]

/-- The word `json`. -/
def jsonWord : JsString := [106, 115, 111, 110]

/-- A line feed. -/
def lineFeed : JsString := [10]

/-- Units consumed by the greedy optional literal `(?:p)?` at the head of `s`. -/
def optionalLength (p s : JsString) : Nat :=
  if p.isPrefixOf s then p.length else 0

/-- First alternative, three backticks then `(?:json)?` then `\n?`: the
length of its match at the head of `s`.  Both optional parts are greedy and
nothing follows them, so there is no backtracking. -/
def matchOpeningFence (s : JsString) : Option Nat :=
  if ticks.isPrefixOf s then
    let a := optionalLength jsonWord (s.drop 3)
    let b := optionalLength lineFeed (s.drop (3 + a))
    some (3 + a + b)
  else none

/-- Second alternative, `\n?` then three backticks: the greedy attempt takes
the line feed, the backtracking attempt takes none. -/
def matchClosingFence (s : JsString) : Option Nat :=
  if (lineFeed ++ ticks).isPrefixOf s then some 4
  else if ticks.isPrefixOf s then some 3
  else none

/-- Length of the match of the whole pattern at the head of `s`: the first
alternative that matches wins. -/
def fenceMatch (s : JsString) : Option Nat :=
  match matchOpeningFence s with
  | some n => some n
  | none => matchClosingFence s

/-- The global replace by the empty string.  `skip` is the number of units
of the current match still to delete; at `skip = 0` the pattern is tried at
the head, a match of `n + 1` units deletes the head and `n` more, no match
keeps the head. -/
def stripFences : Nat → JsString → JsString
  | _, [] => []
  | skip + 1, _ :: rest => stripFences skip rest
  | 0, c :: rest =>
    match fenceMatch (c :: rest) with
    | some (n + 1) => stripFences n rest
    | _ => c :: stripFences 0 rest

/-- The text handed to `JSON.parse`: `raw.replace(..., "").trim()`. -/
def cleanReply (raw : JsString) : JsString := trim (stripFences 0 raw)

/-! ## JSON values and `JSON.parse` -/

/-- A value produced by `JSON.parse`.  A number is kept as the decimal its
literal denotes, `mantissa * 10 ^ exponent`, where `JSON.parse` rounds that
decimal to a double; which texts are accepted is not affected.  An object
keeps its members in source order. -/
inductive Json where
  | null : Json
  | bool (b : Bool) : Json
  | num (mantissa : Int) (exponent : Int) : Json
  | str (s : JsString) : Json
  | arr (items : List Json) : Json
  | obj (members : List (JsString × Json)) : Json

/-- The tokens of the JSON grammar. -/
inductive Token where
  | beginArray | endArray | beginObject | endObject | nameSeparator | valueSeparator
  | string (s : JsString)
  | scalar (v : Json)

/-- Value of a hexadecimal digit. -/
def hexValue (u : Nat) : Option Nat :=
  if 48 ≤ u ∧ u ≤ 57 then some (u - 48)
  else if 65 ≤ u ∧ u ≤ 70 then some (u - 55)
  else if 97 ≤ u ∧ u ≤ 102 then some (u - 87)
  else none

/-- The code unit a single-character escape stands for. -/
def escapeUnit (u : Nat) : Option Nat :=
  if u = 34 then some 34
  else if u = 92 then some 92
  else if u = 47 then some 47
  else if u = 98 then some 8
  else if u = 102 then some 12
  else if u = 110 then some 10
  else if u = 114 then some 13
  else if u = 116 then some 9
  else none

/-- The four hexadecimal digits of a `\u` escape. -/
def hex4 (a b c d : Nat) : Option Nat :=
  match hexValue a, hexValue b, hexValue c, hexValue d with
  | some x, some y, some z, some w => some (((x * 16 + y) * 16 + z) * 16 + w)
  | _, _, _, _ => none

/-- Reads a string body up to its closing quote (the opening quote is already
consumed): the string denoted and the number of units read, the closing quote
included. -/
def lexString : JsString → Option (JsString × Nat)
  | [] => none
  | c :: rest =>
    if c = 34 then some ([], 1)
    else if c = 92 then
      match rest with
      | [] => none
      | e :: rest1 =>
        if e = 117 then
          match rest1 with
          | a :: b :: c1 :: d :: rest2 =>
            match hex4 a b c1 d, lexString rest2 with
            | some u, some (s, n) => some (u :: s, n + 6)
            | _, _ => none
          | _ => none
        else
          match escapeUnit e, lexString rest1 with
          | some u, some (s, n) => some (u :: s, n + 2)
          | _, _ => none
    else if c < 32 then none
    else
      match lexString rest with
      | some (s, n) => some (c :: s, n + 1)
      | none => none

/-- A decimal digit. -/
def isDigit (u : Nat) : Bool := 48 ≤ u && u ≤ 57

/-- The natural number written by a run of decimal digits. -/
def digitsValue (ds : List Nat) : Nat := ds.foldl (fun acc d => 10 * acc + (d - 48)) 0

/-- The integer part of a number: a single `0`, or a run of digits that does
not start with `0`. -/
def intDigits : JsString → List Nat
  | 48 :: _ => [48]
  | s => s.takeWhile isDigit

/-- The fraction part at the head of `s`: no units when there is no `.`, the
digits after the `.` otherwise, of which there must be one at least. -/
def lexFraction (s : JsString) : Option (List Nat × Nat) :=
  match s with
  | 46 :: r =>
    let ds := r.takeWhile isDigit
    if ds = [] then none else some (ds, ds.length + 1)
  | _ => some ([], 0)

/-- The exponent part at the head of `s`: no units when there is no `e` or
`E`, an optional sign and at least one digit otherwise. -/
def lexExponent (s : JsString) : Option (Int × Nat) :=
  match s with
  | [] => some (0, 0)
  | c :: r =>
    if c = 101 ∨ c = 69 then
      match r with
      | 45 :: r1 =>
        let ds := r1.takeWhile isDigit
        if ds = [] then none else some (- (digitsValue ds : Int), ds.length + 2)
      | 43 :: r1 =>
        let ds := r1.takeWhile isDigit
        if ds = [] then none else some ((digitsValue ds : Int), ds.length + 2)
      | _ =>
        let ds := r.takeWhile isDigit
        if ds = [] then none else some ((digitsValue ds : Int), ds.length + 1)
    else some (0, 0)

/-- Reads a number at the head of `s`: its value and the number of units
read. -/
def lexNumber (s : JsString) : Option (Json × Nat) :=
  let negative := s.head? = some 45
  let s1 := if negative then s.drop 1 else s
  let ds := intDigits s1
  if ds = [] then none
  else
    match lexFraction (s1.drop ds.length) with
    | none => none
    | some (fs, nf) =>
      match lexExponent (s1.drop (ds.length + nf)) with
      | none => none
      | some (e, ne) =>
        let m : Int := (digitsValue (ds ++ fs) : Int)
        some (Json.num (if negative then -m else m) (e - fs.length),
          (if negative then 1 else 0) + ds.length + nf + ne)

/-- The units `true`, `false` and `null` are written with. -/
def trueWord : JsString := [116, 114, 117, 101]

/-- The word `false`. -/
def falseWord : JsString := [102, 97, 108, 115, 101]

/-- The word `null`. -/
def nullWord : JsString := [110, 117, 108, 108]

/-- Splits a text into tokens.  `skip` is the number of units of the current
token still to pass over.  JSON white space is space, tab, line feed and
carriage return. -/
def tokenize : Nat → JsString → Option (List Token)
  | _, [] => some []
  | skip + 1, _ :: rest => tokenize skip rest
  | 0, c :: rest =>
    if c = 32 ∨ c = 9 ∨ c = 10 ∨ c = 13 then tokenize 0 rest
    else if c = 91 then (tokenize 0 rest).map (Token.beginArray :: ·)
    else if c = 93 then (tokenize 0 rest).map (Token.endArray :: ·)
    else if c = 123 then (tokenize 0 rest).map (Token.beginObject :: ·)
    else if c = 125 then (tokenize 0 rest).map (Token.endObject :: ·)
    else if c = 58 then (tokenize 0 rest).map (Token.nameSeparator :: ·)
    else if c = 44 then (tokenize 0 rest).map (Token.valueSeparator :: ·)
    else if c = 34 then
      match lexString rest with
      | some (s, n) => (tokenize n rest).map (Token.string s :: ·)
      | none => none
    else if c = 45 ∨ isDigit c then
      match lexNumber (c :: rest) with
      | some (v, n + 1) => (tokenize n rest).map (Token.scalar v :: ·)
      | _ => none
    else if trueWord.isPrefixOf (c :: rest) then
      (tokenize 3 rest).map (Token.scalar (Json.bool true) :: ·)
    else if falseWord.isPrefixOf (c :: rest) then
      (tokenize 4 rest).map (Token.scalar (Json.bool false) :: ·)
    else if nullWord.isPrefixOf (c :: rest) then
      (tokenize 3 rest).map (Token.scalar Json.null :: ·)
    else none

/-- A container under construction: an array with the items read so far
(latest first), or an object with the members read so far (latest first) and
the name that awaits its value. -/
inductive Frame where
  | array (items : List Json)
  | object (members : List (JsString × Json)) (pending : Option JsString)

/-- What the grammar allows next. -/
inductive Mode where
  | value          -- a value
  | valueOrClose   -- just after `[`: a value or `]`
  | name           -- after `,` in an object: a member name
  | nameOrClose    -- just after the opening brace: a member name or the closing brace
  | colon          -- after a member name
  | afterValue     -- after a value inside a container: `,` or the closing bracket
  | finished (v : Json)  -- the top-level value is complete

/-- A value is complete: it is the result at top level, else it goes into the
container on top of the stack. -/
def complete (v : Json) : List Frame → Option (Mode × List Frame)
  | [] => some (Mode.finished v, [])
  | Frame.array items :: st => some (Mode.afterValue, Frame.array (v :: items) :: st)
  | Frame.object ms (some k) :: st =>
    some (Mode.afterValue, Frame.object ((k, v) :: ms) none :: st)
  | Frame.object _ none :: _ => none

/-- One token of the grammar. -/
def parseStep : Mode → List Frame → Token → Option (Mode × List Frame)
  | Mode.value, st, Token.scalar v => complete v st
  | Mode.value, st, Token.string s => complete (Json.str s) st
  | Mode.value, st, Token.beginArray => some (Mode.valueOrClose, Frame.array [] :: st)
  | Mode.value, st, Token.beginObject => some (Mode.nameOrClose, Frame.object [] none :: st)
  | Mode.valueOrClose, st, Token.scalar v => complete v st
  | Mode.valueOrClose, st, Token.string s => complete (Json.str s) st
  | Mode.valueOrClose, st, Token.beginArray => some (Mode.valueOrClose, Frame.array [] :: st)
  | Mode.valueOrClose, st, Token.beginObject =>
    some (Mode.nameOrClose, Frame.object [] none :: st)
  | Mode.valueOrClose, Frame.array items :: st, Token.endArray =>
    complete (Json.arr items.reverse) st
  | Mode.name, Frame.object ms none :: st, Token.string k =>
    some (Mode.colon, Frame.object ms (some k) :: st)
  | Mode.nameOrClose, Frame.object ms none :: st, Token.string k =>
    some (Mode.colon, Frame.object ms (some k) :: st)
  | Mode.nameOrClose, Frame.object ms none :: st, Token.endObject =>
    complete (Json.obj ms.reverse) st
  | Mode.colon, st, Token.nameSeparator => some (Mode.value, st)
  | Mode.afterValue, Frame.array items :: st, Token.valueSeparator =>
    some (Mode.value, Frame.array items :: st)
  | Mode.afterValue, Frame.object ms none :: st, Token.valueSeparator =>
    some (Mode.name, Frame.object ms none :: st)
  | Mode.afterValue, Frame.array items :: st, Token.endArray =>
    complete (Json.arr items.reverse) st
  | Mode.afterValue, Frame.object ms none :: st, Token.endObject =>
    complete (Json.obj ms.reverse) st
  | _, _, _ => none

/-- Runs the grammar over the tokens; the text is JSON when the top-level
value is complete at the end. -/
def parseTokens : Mode → List Frame → List Token → Option Json
  | Mode.finished v, _, [] => some v
  | _, _, [] => none
  | m, st, t :: ts =>
    match parseStep m st t with
    | some (m1, st1) => parseTokens m1 st1 ts
    | none => none

/-- The function `JSON.parse` on a string: `none` when it throws `SyntaxError`. -/
def jsonParse (text : JsString) : Option Json :=
  match tokenize 0 text with
  | some ts => parseTokens Mode.value [] ts
  | none => none

/-! ## Errors, accounts, records, responses -/

/-- A thrown error.  The text of `err.message` is chosen by whoever throws:
an outside library or service gives its own text, the engine gives an
engine-defined text for a `SyntaxError` of `JSON.parse` and for a `TypeError`
on a property read or a method call on `null` or `undefined`, the database
client gives its own for an update that finds no row, bcrypt gives its own
for an argument that is not a string. -/
inductive JsError where
  | external (message : String)
  | syntaxError (text : JsString)
  | typeError (property : String)
  | recordNotFound (id : Nat)
  | illegalArguments (function : String)

/-- A row of the `user` table. -/
structure User where
  id : Nat
  email : String
  password : String
  name : Option String
  plan : String
  creditsRemaining : Int
  deriving DecidableEq

/-- The `data` object handed to `prisma.analysis.create`; a field that is
`undefined` is `none`. -/
structure AnalysisData where
  userId : Nat
  resumeText : JsString
  jobDescription : JsString
  score : Option Json
  missingKeywords : Option Json
  suggestions : Option Json

/-- A row of the `analysis` table. -/
structure Analysis where
  id : Nat
  data : AnalysisData

/-- The database. -/
structure Store where
  users : List User
  analyses : List Analysis

/-- The file multer puts in `req.file`. -/
structure UploadedFile where
  mimetype : String
  buffer : List Nat

/-- The account summary of the auth responses. -/
structure UserSummary where
  id : Nat
  email : String
  name : Option String
  plan : String
  creditsRemaining : Int

/-- A response body: `{success: false, error, message?}`,
`{success: false, errors}`, the analyze success envelope, the auth success
envelope. -/
inductive Body where
  | failure (error : String) (message : Option JsError)
  | invalid (errors : List String)
  | analysis (id : Nat) (score missingKeywords suggestions : Option Json)
      (creditsRemaining : Int)
  | session (token : String) (user : UserSummary)

/-- An HTTP response; `res.json` without `res.status` answers 200. -/
structure Response where
  status : Nat
  body : Body

/-- The `success` field of the envelope. -/
def Response.success (r : Response) : Bool :=
  match r.body with
  | Body.failure _ _ => false
  | Body.invalid _ => false
  | Body.analysis _ _ _ _ _ => true
  | Body.session _ _ => true

/-- The token carried by a response, if any. -/
def Response.token (r : Response) : Option String :=
  match r.body with
  | Body.session t _ => some t
  | _ => none

/-- A call that leaves the process, with its arguments. -/
inductive Call where
  | pdfParse (buffer : List Nat)
  | extractRawText (buffer : List Nat)
  | chatCompletion (systemPrompt userPrompt : JsString)
  | analysisCreate (data : AnalysisData)
  | userUpdate (id : Nat) (creditsRemaining : Int)
  | userFindUnique (email : String)
  | userCreate (email password : String) (name : Option String) (plan : String)
      (creditsRemaining : Int)
  | bcryptHash (password : Json)
  | bcryptCompare (password : Json) (stored : String)
  | jwtSign (userId : Nat) (email : String)

/-- The extractor calls of a log. -/
def Call.isExtraction : Call → Bool
  | Call.pdfParse _ => true
  | Call.extractRawText _ => true
  | _ => false

/-- The scorer calls of a log. -/
def Call.isScoring : Call → Bool
  | Call.chatCompletion _ _ => true
  | _ => false

/-- The store calls of a log. -/
def Call.isStore : Call → Bool
  | Call.analysisCreate _ => true
  | Call.userUpdate _ _ => true
  | Call.userFindUnique _ => true
  | Call.userCreate _ _ _ _ _ => true
  | _ => false

/-- What the outside world answers to the calls of one analyze request:
`pdfParse(...)` gives `result.text`, `mammoth.extractRawText(...)` gives
`value`, the chat completion gives `completion.choices[0].message.content`
(an error when the call rejects or the path to `content` cannot be read,
`none` when `content` is `null`), `prisma.analysis.create` gives the id of the
new row, `prisma.user.update` resolves or rejects. -/
structure AnalyzeEnv where
  pdfParse : Except JsError (Option JsString)
  extractRawText : Except JsError (Option JsString)
  completion : Except JsError (Option JsString)
  analysisCreate : Except JsError Nat
  userUpdate : Except JsError Unit

/-- What a handler did: its response, the database afterwards and the calls
it made, in order. -/
structure Outcome where
  response : Response
  store : Store
  calls : List Call

/-! ## `server.js` -/

/-- The function `parseDocument`. -/
def parseDocument (env : AnalyzeEnv) (file : UploadedFile) :
    Except JsError (Option JsString) × List Call :=
  if file.mimetype = "application/pdf" then
    (env.pdfParse, [Call.pdfParse file.buffer])
  else
    (env.extractRawText, [Call.extractRawText file.buffer])

/-- The constant `systemPrompt`. -/
def systemPrompt : JsString :=
  utf16 "You are an ATS expert. Return only valid JSON with score, missingKeywords array, and suggestions array."

/-- The template `userPrompt`. -/
def userPrompt (resume description : JsString) : JsString :=
  utf16 "Analyze this resume against the job description.\n\nResume: " ++ resume ++
  utf16 "\n\nJob: " ++ description ++
  utf16 "\n\nProvide ATS score (0-100), top 5 missing keywords, and 3-4 improvement tips."

/-- The tail of `getAtsAnalysis`, from the reply `raw` on: strip the fences,
trim, `JSON.parse`.  A `null` reply has no `replace`. -/
def decodeReply (raw : Option JsString) : Except JsError Json :=
  match raw with
  | none => Except.error (JsError.typeError "replace")
  | some raw =>
    match jsonParse (cleanReply raw) with
    | some v => Except.ok v
    | none => Except.error (JsError.syntaxError (cleanReply raw))

/-- The function `getAtsAnalysis`. -/
def getAtsAnalysis (env : AnalyzeEnv) (resume description : JsString) :
    Except JsError Json × List Call :=
  let calls := [Call.chatCompletion systemPrompt (userPrompt resume description)]
  match env.completion with
  | Except.error e => (Except.error e, calls)
  | Except.ok raw => (decodeReply raw, calls)

/-- Last member of that name, the one `JSON.parse` keeps. -/
def lookupMember (name : JsString) : List (JsString × Json) → Option Json
  | [] => none
  | (k, v) :: rest =>
    match lookupMember name rest with
    | some w => some w
    | none => if k = name then some v else none

/-- The property read `analysis.<name>` for the names the handler reads
(`score`, `missingKeywords`, `suggestions`, none of which a string, a number,
a boolean or an array has): a `TypeError` on `null`, the member of an object,
`undefined` otherwise. -/
def getProperty (v : Json) (name : String) : Except JsError (Option Json) :=
  match v with
  | Json.null => Except.error (JsError.typeError name)
  | Json.obj members => Except.ok (lookupMember (utf16 name) members)
  | _ => Except.ok none

/-- The test `!s?.trim()`: `s` is `undefined` or `null`, or blank. -/
def isBlank (s : Option JsString) : Bool :=
  match s with
  | none => true
  | some t => (trim t).isEmpty

/-- The row `u` after an update of `creditsRemaining` where `id` matches. -/
def setCredits (id : Nat) (credits : Int) (u : User) : User :=
  if u.id = id then { u with creditsRemaining := credits } else u

/-- The call `prisma.user.update({where: {id}, data: {creditsRemaining}})`
once the database is reached: the row of that id is rewritten; there must be
one. -/
def Store.updateCredits (st : Store) (id : Nat) (credits : Int) : Option Store :=
  if st.users.any (fun u => u.id == id) then
    some { st with users := st.users.map (setCredits id credits) }
  else none

/-- The account of that id, as stored. -/
def Store.findById (st : Store) (id : Nat) : Option User :=
  st.users.find? (fun u => u.id == id)

/-- The account of that email, as stored. -/
def Store.findByEmail (st : Store) (email : String) : Option User :=
  st.users.find? (fun u => u.email == email)

/-- The response `res.status(code).json({success: false, error})`. -/
def failure (code : Nat) (error : String) : Response :=
  ⟨code, Body.failure error none⟩

/-- The `catch` block of the analyze handler. -/
def analysisFailed (err : JsError) : Response :=
  ⟨500, Body.failure "Analysis failed" (some err)⟩

/-- The handler from the credit update on (`user.plan === "FREE"` and what
follows), the record being saved under `savedId`. -/
def applyCredits (env : AnalyzeEnv) (st : Store) (user : User) (savedId : Nat)
    (score missingKeywords suggestions : Option Json) (calls : List Call) : Outcome :=
  if user.plan = "FREE" then
    let calls1 := calls ++ [Call.userUpdate user.id (user.creditsRemaining - 1)]
    match env.userUpdate with
    | Except.error e => ⟨analysisFailed e, st, calls1⟩
    | Except.ok _ =>
      match st.updateCredits user.id (user.creditsRemaining - 1) with
      | none => ⟨analysisFailed (JsError.recordNotFound user.id), st, calls1⟩
      | some st1 =>
        ⟨⟨200, Body.analysis savedId score missingKeywords suggestions
          (user.creditsRemaining - 1)⟩, st1, calls1⟩
  else
    ⟨⟨200, Body.analysis savedId score missingKeywords suggestions 999⟩, st, calls⟩

/-- The handler from `prisma.analysis.create` on: the three property reads
that build `data`, in the order written, the create, then the credit
update. -/
def persist (env : AnalyzeEnv) (st : Store) (user : User) (resumeText jobDescription : JsString)
    (analysis : Json) (calls : List Call) : Outcome :=
  match getProperty analysis "score" with
  | Except.error e => ⟨analysisFailed e, st, calls⟩
  | Except.ok score =>
    match getProperty analysis "missingKeywords" with
    | Except.error e => ⟨analysisFailed e, st, calls⟩
    | Except.ok missingKeywords =>
      match getProperty analysis "suggestions" with
      | Except.error e => ⟨analysisFailed e, st, calls⟩
      | Except.ok suggestions =>
        let data : AnalysisData :=
          ⟨user.id, resumeText, jobDescription, score, missingKeywords, suggestions⟩
        let calls1 := calls ++ [Call.analysisCreate data]
        match env.analysisCreate with
        | Except.error e => ⟨analysisFailed e, st, calls1⟩
        | Except.ok savedId =>
          applyCredits env { st with analyses := st.analyses ++ [⟨savedId, data⟩] } user
            savedId score missingKeywords suggestions calls1

/-- The `try` block of the analyze handler. -/
def analyzeBody (env : AnalyzeEnv) (st : Store) (user : User) (file : UploadedFile)
    (jobDescription : JsString) : Outcome :=
  match parseDocument env file with
  | (Except.error e, calls) => ⟨analysisFailed e, st, calls⟩
  | (Except.ok resumeText, calls) =>
    if isBlank resumeText then
      ⟨failure 400 "Could not extract text from file", st, calls⟩
    else
      let text := resumeText.getD []
      match getAtsAnalysis env text jobDescription with
      | (Except.error e, calls1) => ⟨analysisFailed e, st, calls ++ calls1⟩
      | (Except.ok analysis, calls1) =>
        persist env st user text jobDescription analysis (calls ++ calls1)

/-- The handler of `POST /api/analyze`, after `authMiddleware` has put the
account in `req.user` and multer has put the upload in `req.file` and the text
field in `req.body.jobDescription`. -/
def analyze (env : AnalyzeEnv) (st : Store) (user : User) (file : Option UploadedFile)
    (jobDescription : Option JsString) : Outcome :=
  match file with
  | none => ⟨failure 400 "Resume file required", st, []⟩
  | some file =>
    if isBlank jobDescription then
      ⟨failure 400 "Job description required", st, []⟩
    else
      let jd := jobDescription.getD []
      if (trim jd).length < 50 then
        ⟨failure 400 "Job description too short (min 50 characters)", st, []⟩
      else if user.plan = "FREE" ∧ user.creditsRemaining ≤ 0 then
        ⟨failure 403 "No credits remaining. Please upgrade to Pro.", st, []⟩
      else analyzeBody env st user file jd

/-! ## `routes/auth.js` -/

/-- A signup or login request after the express-validator chain has run:
`errors` is `validationResult(req).array()`, the other fields are those of
`req.body`.  The chain makes `email` a string (`isEmail().normalizeEmail()`).
For `password` it checks a length on signup (`isLength`, on the value written
as a string) and only `exists()` on login, so `password` is whatever value
`express.json()` decoded: a string, a number, a boolean, `null`, an array or
an object. -/
structure AuthRequest where
  errors : List String
  email : String
  password : Json
  name : Option String

/-- What the outside world answers to the calls of one auth request:
`prisma.user.findUnique` resolves or rejects, `bcrypt.hash(password, 10)`
gives the hash of a string, `bcrypt.compare(password, stored)` gives its
verdict on a string, `prisma.user.create` gives the id of the new row,
`jwt.sign` gives the token for the claims `userId` and `email`. -/
structure AuthEnv where
  findUnique : Except JsError Unit
  hash : Except JsError String
  compare : JsString → String → Except JsError Bool
  userCreate : Except JsError Nat
  sign : Nat → String → Except JsError String

/-- The call `bcrypt.hash(password, 10)`: bcrypt rejects data that is neither
a string nor a Buffer, and a decoded JSON body holds no Buffer. -/
def bcryptHash (env : AuthEnv) (password : Json) : Except JsError String :=
  match password with
  | Json.str _ => env.hash
  | _ => Except.error (JsError.illegalArguments "hash")

/-- The call `bcrypt.compare(password, stored)`: bcrypt rejects data that is
neither a string nor a Buffer, and a decoded JSON body holds no Buffer. -/
def bcryptCompare (env : AuthEnv) (password : Json) (stored : String) :
    Except JsError Bool :=
  match password with
  | Json.str s => env.compare s stored
  | _ => Except.error (JsError.illegalArguments "compare")

/-- The expression `name || null`. -/
def nameOrNull (name : Option String) : Option String :=
  match name with
  | some n => if n = "" then none else some n
  | none => none

/-- The `user` object of the auth responses. -/
def User.summary (u : User) : UserSummary :=
  ⟨u.id, u.email, u.name, u.plan, u.creditsRemaining⟩

/-- The handler of `POST /api/auth/signup`. -/
def signup (env : AuthEnv) (st : Store) (req : AuthRequest) : Outcome :=
  if ¬ req.errors.isEmpty then ⟨⟨400, Body.invalid req.errors⟩, st, []⟩
  else
    let calls := [Call.userFindUnique req.email]
    match env.findUnique with
    | Except.error _ => ⟨failure 500 "Signup failed", st, calls⟩
    | Except.ok _ =>
      match st.findByEmail req.email with
      | some _ => ⟨failure 400 "Email already registered", st, calls⟩
      | none =>
        let calls1 := calls ++ [Call.bcryptHash req.password]
        match bcryptHash env req.password with
        | Except.error _ => ⟨failure 500 "Signup failed", st, calls1⟩
        | Except.ok hashedPassword =>
          let calls2 := calls1 ++
            [Call.userCreate req.email hashedPassword (nameOrNull req.name) "FREE" 3]
          match env.userCreate with
          | Except.error _ => ⟨failure 500 "Signup failed", st, calls2⟩
          | Except.ok id =>
            let user : User :=
              ⟨id, req.email, hashedPassword, nameOrNull req.name, "FREE", 3⟩
            let st1 : Store := { st with users := st.users ++ [user] }
            let calls3 := calls2 ++ [Call.jwtSign user.id user.email]
            match env.sign user.id user.email with
            | Except.error _ => ⟨failure 500 "Signup failed", st1, calls3⟩
            | Except.ok token => ⟨⟨200, Body.session token user.summary⟩, st1, calls3⟩

/-- The handler of `POST /api/auth/login`. -/
def login (env : AuthEnv) (st : Store) (req : AuthRequest) : Outcome :=
  if ¬ req.errors.isEmpty then ⟨⟨400, Body.invalid req.errors⟩, st, []⟩
  else
    let calls := [Call.userFindUnique req.email]
    match env.findUnique with
    | Except.error _ => ⟨failure 500 "Login failed", st, calls⟩
    | Except.ok _ =>
      match st.findByEmail req.email with
      | none => ⟨failure 401 "Invalid credentials", st, calls⟩
      | some user =>
        let calls1 := calls ++ [Call.bcryptCompare req.password user.password]
        match bcryptCompare env req.password user.password with
        | Except.error _ => ⟨failure 500 "Login failed", st, calls1⟩
        | Except.ok validPassword =>
          if ¬ validPassword then ⟨failure 401 "Invalid credentials", st, calls1⟩
          else
            let calls2 := calls1 ++ [Call.jwtSign user.id user.email]
            match env.sign user.id user.email with
            | Except.error _ => ⟨failure 500 "Login failed", st, calls2⟩
            | Except.ok token => ⟨⟨200, Body.session token user.summary⟩, st, calls2⟩

/-! ## Requests handled one at a time -/

/-- Modelled from the spec: `authMiddleware` (`./middleware/auth`, required by
`server.js`, not among the source files), the spec's `resolve(token)`:
"performs an account lookup by the id embedded in the token claims and fails
with `Unauthenticated` (not found) if the account no longer exists", and
fails too when the token is "missing, malformed, expired, or signed with the
wrong key".  `claims` is the account id of a token that verifies, `none` for
any other token; `none` is returned when the request is refused. -/
def authMiddleware (st : Store) (claims : Option Nat) : Option User :=
  match claims with
  | none => none
  | some id => st.findById id

/-- A request to one of the three routes, with the answers of the outside
world for it. -/
inductive Request where
  | signup (env : AuthEnv) (req : AuthRequest)
  | login (env : AuthEnv) (req : AuthRequest)
  | analyze (env : AnalyzeEnv) (claims : Option Nat) (file : Option UploadedFile)
      (jobDescription : Option JsString)

/-- The database after one request. -/
def serve (st : Store) : Request → Store
  | Request.signup env req => (signup env st req).store
  | Request.login env req => (login env st req).store
  | Request.analyze env claims file jobDescription =>
    match authMiddleware st claims with
    | none => st
    | some user => (analyze env st user file jobDescription).store

/-- The database after a sequence of requests, each one handled to its end
before the next. -/
def serveAll (st : Store) (reqs : List Request) : Store := reqs.foldl serve st

/-- The database before any request. -/
def emptyStore : Store := ⟨[], []⟩

/-- The bound on stored credits: every FREE account holds between 0 and 3. -/
def CreditsBounded (st : Store) : Prop :=
  ∀ u ∈ st.users, u.plan = "FREE" → 0 ≤ u.creditsRemaining ∧ u.creditsRemaining ≤ 3

/-! ## Sample requests -/

/-- A job description of more than 50 units, with white space around it. -/
def sampleJobDescription : JsString :=
  utf16 "  Backend engineer: Node.js, PostgreSQL, REST APIs and Docker; five years.\n"

/-- A job description of exactly 49 units. -/
def sampleShortDescription : JsString :=
  utf16 "Backend engineer, Node.js and PostgreSQL, 5 years"

/-- A job description of exactly 50 units. -/
def sampleBoundaryDescription : JsString :=
  utf16 "Backend engineer, Node.js and PostgreSQL, 5 years."

/-- A PDF upload. -/
def sampleFile : UploadedFile := ⟨"application/pdf", [37, 80, 68, 70]⟩

/-- The text of the sample upload. -/
def sampleResume : JsString := utf16 "Jane Doe. Node.js developer, three years."

/-- A fenced scorer reply. -/
def sampleReply : JsString :=
  utf16 "```json\n\x7b\"score\": 72, \"missingKeywords\": [\"Docker\"], \"suggestions\": [\"Mention REST APIs\"]\x7d\n```"

/-- The value of the sample reply. -/
def sampleAnalysis : Json :=
  Json.obj [(utf16 "score", Json.num 72 0),
    (utf16 "missingKeywords", Json.arr [Json.str (utf16 "Docker")]),
    (utf16 "suggestions", Json.arr [Json.str (utf16 "Mention REST APIs")])]

/-- An outside world in which every call succeeds and the scorer replies `reply`. -/
def replyEnv (reply : JsString) : AnalyzeEnv :=
  ⟨Except.ok (some sampleResume), Except.ok none, Except.ok (some reply), Except.ok 7,
    Except.ok ()⟩

/-- An outside world in which every call succeeds. -/
def sampleEnv : AnalyzeEnv := replyEnv sampleReply

/-- An outside world in which the chat completion rejects with `message`. -/
def scorerDownEnv (message : String) : AnalyzeEnv :=
  { sampleEnv with completion := Except.error (JsError.external message) }

/-- An outside world in which the credit update rejects. -/
def updateDownEnv : AnalyzeEnv :=
  { sampleEnv with userUpdate := Except.error (JsError.external "Connection terminated") }

/-- An account. -/
def sampleUser (plan : String) (credits : Int) : User :=
  ⟨5, "jane@example.com", "$2b$10$storedhash", some "Jane", plan, credits⟩

/-- A database that holds the sample account only. -/
def sampleStore (plan : String) (credits : Int) : Store := ⟨[sampleUser plan credits], []⟩

/-- An outside world for the auth routes: the password is `correct horse`. -/
def sampleAuthEnv : AuthEnv :=
  ⟨Except.ok (), Except.ok "$2b$10$storedhash",
    fun password _ => Except.ok (password == utf16 "correct horse"),
    Except.ok 5, fun _ _ => Except.ok "header.payload.signature"⟩

/-- A login body whose password is the number 12345; it passes the
validation chain of the login route. -/
def sampleNumberLogin : AuthRequest :=
  ⟨[], "jane@example.com", Json.num 12345 0, none⟩

/-- A signup followed by four analyses of the new account. -/
def sampleRun : List Request :=
  [Request.signup sampleAuthEnv
      ⟨[], "jane@example.com", Json.str (utf16 "correct horse"), some "Jane"⟩,
    Request.analyze sampleEnv (some 5) (some sampleFile) (some sampleJobDescription),
    Request.analyze sampleEnv (some 5) (some sampleFile) (some sampleJobDescription),
    Request.analyze sampleEnv (some 5) (some sampleFile) (some sampleJobDescription),
    Request.analyze sampleEnv (some 5) (some sampleFile) (some sampleJobDescription)]

/-! ## The analyze handler, step by step -/

theorem analyze_valid_inputs (env : AnalyzeEnv) (st : Store) (user : User) (file : UploadedFile)
    (jd : JsString) (hlen : 50 ≤ (trim jd).length) :
    analyze env st user (some file) (some jd) =
      if user.plan = "FREE" ∧ user.creditsRemaining ≤ 0 then
        ⟨failure 403 "No credits remaining. Please upgrade to Pro.", st, []⟩
      else analyzeBody env st user file jd := by
  have hne : (trim jd).isEmpty = false := by
    cases h : trim jd with
    | nil => rw [h] at hlen; simp at hlen
    | cons a l => rfl
  have hlt : ¬ (trim jd).length < 50 := by omega
  simp [analyze, isBlank, hne, hlt]

/-- Claim C1: with a file and a job description of at least 50 units after trimming, a
FREE account with `creditsRemaining ≤ 0` is answered 403 "No credits
remaining. Please upgrade to Pro."; the handler makes no call at all (no
extractor call, no scorer call, no store call) and the database is as it
was. -/
theorem analyze_quota_exhausted (env : AnalyzeEnv) (st : Store) (user : User)
    (file : UploadedFile) (jd : JsString) (hlen : 50 ≤ (trim jd).length)
    (hplan : user.plan = "FREE") (hcredits : user.creditsRemaining ≤ 0) :
    (analyze env st user (some file) (some jd)).response =
      ⟨403, Body.failure "No credits remaining. Please upgrade to Pro." none⟩ ∧
    (analyze env st user (some file) (some jd)).calls = [] ∧
    (∀ c ∈ (analyze env st user (some file) (some jd)).calls,
      c.isExtraction = false ∧ c.isScoring = false ∧ c.isStore = false) ∧
    (analyze env st user (some file) (some jd)).store = st := by
  rw [analyze_valid_inputs env st user file jd hlen]
  simp [hplan, hcredits, failure]

theorem updateCredits_eq_some {st st1 : Store} {id : Nat} {c : Int}
    (h : st.updateCredits id c = some st1) :
    st1.users = st.users.map (setCredits id c) ∧ st1.analyses = st.analyses := by
  unfold Store.updateCredits at h
  split at h
  · cases h; exact ⟨rfl, rfl⟩
  · cases h

theorem updateCredits_isSome (st : Store) (id : Nat) (c : Int)
    (h : (st.findById id).isSome) : ∃ st1, st.updateCredits id c = some st1 := by
  unfold Store.updateCredits
  have hany : st.users.any (fun u => u.id == id) = true := by
    unfold Store.findById at h
    rw [List.find?_isSome] at h
    obtain ⟨u, hu, hid⟩ := h
    exact List.any_eq_true.mpr ⟨u, hu, hid⟩
  simp [hany]

/-- The shape of what `applyCredits` leaves behind. -/
theorem applyCredits_cases (env : AnalyzeEnv) (st : Store) (user : User) (savedId : Nat)
    (s m g : Option Json) (calls : List Call) (out : Outcome)
    (hout : applyCredits env st user savedId s m g calls = out) :
    out.store.analyses = st.analyses ∧
    ((out.response.success = false ∧ out.store = st ∧ user.plan = "FREE" ∧
        out.calls = calls ++ [Call.userUpdate user.id (user.creditsRemaining - 1)] ∧
        ((∃ e, env.userUpdate = Except.error e ∧ out.response = analysisFailed e) ∨
          (st.updateCredits user.id (user.creditsRemaining - 1) = none ∧
            out.response = analysisFailed (JsError.recordNotFound user.id)))) ∨
      (user.plan = "FREE" ∧
        out.response = ⟨200, Body.analysis savedId s m g (user.creditsRemaining - 1)⟩ ∧
        out.store.users = st.users.map (setCredits user.id (user.creditsRemaining - 1)) ∧
        out.calls = calls ++ [Call.userUpdate user.id (user.creditsRemaining - 1)]) ∨
      (user.plan ≠ "FREE" ∧ out.response = ⟨200, Body.analysis savedId s m g 999⟩ ∧
        out.store = st ∧ out.calls = calls)) := by
  subst hout
  unfold applyCredits
  by_cases hp : user.plan = "FREE"
  · simp only [hp, if_true]
    cases hu : env.userUpdate with
    | error e => simp [analysisFailed, Response.success]
    | ok u =>
      cases hc : st.updateCredits user.id (user.creditsRemaining - 1) with
      | none => simp [analysisFailed, Response.success]
      | some st1 =>
        have := updateCredits_eq_some hc
        simp [this.1, this.2]
  · simp [hp]



/-- The shape of what `persist` leaves behind. -/
theorem persist_cases (env : AnalyzeEnv) (st : Store) (user : User) (text jd : JsString)
    (analysis : Json) (calls : List Call) (out : Outcome)
    (hout : persist env st user text jd analysis calls = out) :
    (∃ e, out = ⟨analysisFailed e, st, calls⟩ ∧
      (getProperty analysis "score" = Except.error e ∨
        getProperty analysis "missingKeywords" = Except.error e ∨
        getProperty analysis "suggestions" = Except.error e)) ∨
    (∃ s m g, getProperty analysis "score" = Except.ok s ∧
      getProperty analysis "missingKeywords" = Except.ok m ∧
      getProperty analysis "suggestions" = Except.ok g ∧
      ((∃ e, env.analysisCreate = Except.error e ∧
          out = ⟨analysisFailed e, st, calls ++ [Call.analysisCreate ⟨user.id, text, jd, s, m, g⟩]⟩) ∨
        (∃ id, env.analysisCreate = Except.ok id ∧
          out = applyCredits env
            { st with analyses := st.analyses ++ [⟨id, ⟨user.id, text, jd, s, m, g⟩⟩] } user id
            s m g (calls ++ [Call.analysisCreate ⟨user.id, text, jd, s, m, g⟩])))) := by
  subst hout
  unfold persist
  cases hs : getProperty analysis "score" with
  | error e => left; exact ⟨e, rfl, Or.inl rfl⟩
  | ok s =>
    cases hm : getProperty analysis "missingKeywords" with
    | error e => left; exact ⟨e, rfl, Or.inr (Or.inl rfl)⟩
    | ok m =>
      cases hg : getProperty analysis "suggestions" with
      | error e => left; exact ⟨e, rfl, Or.inr (Or.inr rfl)⟩
      | ok g =>
        right
        refine ⟨s, m, g, rfl, rfl, rfl, ?_⟩
        cases hc : env.analysisCreate with
        | error e => left; exact ⟨e, rfl, rfl⟩
        | ok id => right; exact ⟨id, rfl, rfl⟩

/-- The calls of `parseDocument` are extractor calls, and there is one. -/
theorem parseDocument_calls (env : AnalyzeEnv) (file : UploadedFile) :
    (parseDocument env file).2 = [Call.pdfParse file.buffer] ∨
    (parseDocument env file).2 = [Call.extractRawText file.buffer] := by
  unfold parseDocument
  split
  · left; rfl
  · right; rfl

/-- The shape of what the `try` block leaves behind. -/
theorem analyzeBody_cases (env : AnalyzeEnv) (st : Store) (user : User) (file : UploadedFile)
    (jd : JsString) (out : Outcome) (hout : analyzeBody env st user file jd = out) :
    (∃ e, (parseDocument env file).1 = Except.error e ∧
      out = ⟨analysisFailed e, st, (parseDocument env file).2⟩) ∨
    (∃ t, (parseDocument env file).1 = Except.ok t ∧ isBlank t = true ∧
      out = ⟨failure 400 "Could not extract text from file", st, (parseDocument env file).2⟩) ∨
    (∃ text, (parseDocument env file).1 = Except.ok (some text) ∧ isBlank (some text) = false ∧
      ((∃ e, (getAtsAnalysis env text jd).1 = Except.error e ∧
          out = ⟨analysisFailed e, st,
            (parseDocument env file).2 ++ (getAtsAnalysis env text jd).2⟩) ∨
        (∃ analysis, (getAtsAnalysis env text jd).1 = Except.ok analysis ∧
          out = persist env st user text jd analysis
            ((parseDocument env file).2 ++ (getAtsAnalysis env text jd).2)))) := by
  subst hout
  unfold analyzeBody
  rcases hp : parseDocument env file with ⟨r, calls⟩
  cases r with
  | error e => left; exact ⟨e, rfl, rfl⟩
  | ok t =>
    right
    by_cases hb : isBlank t = true
    · left; exact ⟨t, rfl, hb, by simp [hb]⟩
    · right
      cases t with
      | none => simp [isBlank] at hb
      | some text =>
        simp only [Bool.not_eq_true] at hb
        refine ⟨text, rfl, hb, ?_⟩
        simp only [hb, Option.getD_some]
        rcases hg : getAtsAnalysis env text jd with ⟨r2, calls2⟩
        cases r2 with
        | error e => left; exact ⟨e, rfl, by simp⟩
        | ok analysis => right; exact ⟨analysis, rfl, by simp⟩



theorem updateCredits_eq_none {st : Store} {id : Nat} {c : Int}
    (h : st.updateCredits id c = none) : st.findById id = none := by
  unfold Store.updateCredits at h
  split at h
  · cases h
  · rename_i hany
    unfold Store.findById
    rw [List.find?_eq_none]
    intro u hu hid
    exact hany (List.any_eq_true.mpr ⟨u, hu, hid⟩)

/-- What a run of the `try` block can leave behind: a failure with the
database untouched; a failure of the credit update, with the new record kept
and no account changed; a success, with the new record kept and either no
account changed (other plans) or the credits of the account rewritten (plan
FREE). -/
theorem analyzeBody_summary (env : AnalyzeEnv) (st : Store) (user : User) (file : UploadedFile)
    (jd : JsString) (out : Outcome) (hout : analyzeBody env st user file jd = out) :
    (out.response.success = false ∧ out.store = st) ∨
    (out.response.success = false ∧ user.plan = "FREE" ∧ out.store.users = st.users ∧
      (∃ record, out.store.analyses = st.analyses ++ [record]) ∧
      out.calls.getLast? = some (Call.userUpdate user.id (user.creditsRemaining - 1)) ∧
      ((∃ e, env.userUpdate = Except.error e) ∨ st.findById user.id = none)) ∨
    (out.response.success = true ∧
      (∃ record, out.store.analyses = st.analyses ++ [record]) ∧
      ((user.plan ≠ "FREE" ∧ out.store.users = st.users) ∨
        (user.plan = "FREE" ∧
          out.store.users = st.users.map (setCredits user.id (user.creditsRemaining - 1))))) := by
  rcases analyzeBody_cases env st user file jd out hout with
    ⟨e, -, h⟩ | ⟨t, -, -, h⟩ | ⟨text, -, -, ⟨e, -, h⟩ | ⟨analysis, -, h⟩⟩
  · left; subst h; exact ⟨rfl, rfl⟩
  · left; subst h; exact ⟨rfl, rfl⟩
  · left; subst h; exact ⟨rfl, rfl⟩
  · rcases persist_cases env st user text jd analysis _ out h.symm with
      ⟨e, h1, -⟩ | ⟨s, m, g, -, -, -, ⟨e, -, h1⟩ | ⟨id, -, h1⟩⟩
    · left; subst h1; exact ⟨rfl, rfl⟩
    · left; subst h1; exact ⟨rfl, rfl⟩
    · rcases applyCredits_cases env _ user id s m g _ out h1.symm with
        ⟨ha, ⟨hf, hst, hp, hcalls, hwhy⟩ | ⟨hp, hr, hu, -⟩ | ⟨hp, hr, hst, -⟩⟩
      · right; left
        refine ⟨hf, hp, by rw [hst], ⟨_, ha⟩, by rw [hcalls]; simp, ?_⟩
        rcases hwhy with ⟨e, he, -⟩ | ⟨hnone, -⟩
        · exact Or.inl ⟨e, he⟩
        · exact Or.inr (by simpa [Store.findById] using updateCredits_eq_none hnone)
      · right; right
        refine ⟨by rw [hr]; rfl, ⟨_, ha⟩, Or.inr ⟨hp, hu⟩⟩
      · right; right
        refine ⟨by rw [hr]; rfl, ⟨_, ha⟩, Or.inl ⟨hp, by rw [hst]⟩⟩

/-- The summary of `analyzeBody_summary` for the whole handler; a request that
reaches the `try` block has passed the quota gate. -/
theorem analyze_summary (env : AnalyzeEnv) (st : Store) (user : User)
    (file : Option UploadedFile) (jd : Option JsString) (out : Outcome)
    (hout : analyze env st user file jd = out) :
    (out.response.success = false ∧ out.store = st) ∨
    (out.response.success = false ∧ user.plan = "FREE" ∧ out.store.users = st.users ∧
      (∃ record, out.store.analyses = st.analyses ++ [record]) ∧
      out.calls.getLast? = some (Call.userUpdate user.id (user.creditsRemaining - 1)) ∧
      ((∃ e, env.userUpdate = Except.error e) ∨ st.findById user.id = none)) ∨
    (out.response.success = true ∧
      (∃ record, out.store.analyses = st.analyses ++ [record]) ∧
      ((user.plan ≠ "FREE" ∧ out.store.users = st.users) ∨
        (user.plan = "FREE" ∧ 0 < user.creditsRemaining ∧
          out.store.users = st.users.map (setCredits user.id (user.creditsRemaining - 1))))) := by
  subst hout
  unfold analyze
  cases file with
  | none => left; exact ⟨rfl, rfl⟩
  | some f =>
    simp only
    split
    · left; exact ⟨rfl, rfl⟩
    · split
      · left; exact ⟨rfl, rfl⟩
      · split
        · left; exact ⟨rfl, rfl⟩
        · rename_i hgate
          rcases analyzeBody_summary env st user f _ _ rfl with h | h | ⟨h1, h2, h3 | ⟨hp, hu⟩⟩
          · exact Or.inl h
          · exact Or.inr (Or.inl h)
          · exact Or.inr (Or.inr ⟨h1, h2, Or.inl h3⟩)
          · refine Or.inr (Or.inr ⟨h1, h2, Or.inr ⟨hp, ?_, hu⟩⟩)
            by_contra hc
            exact hgate ⟨hp, by omega⟩

theorem trimEnd_append_whiteSpace (s post : JsString)
    (hpost : ∀ u ∈ post, isWhiteSpace u = true) : trimEnd (s ++ post) = trimEnd s := by
  unfold trimEnd
  rw [List.reverse_append]
  rw [List.dropWhile_append_of_pos (fun a ha => hpost a (List.mem_reverse.mp ha))]

/-- White space around a string does not change what `trim` gives. -/
theorem trim_padding (pre s post : JsString) (hpre : ∀ u ∈ pre, isWhiteSpace u = true)
    (hpost : ∀ u ∈ post, isWhiteSpace u = true) : trim (pre ++ s ++ post) = trim s := by
  unfold trim trimStart
  rw [List.append_assoc, List.dropWhile_append_of_pos hpre, List.dropWhile_append]
  by_cases h : (List.dropWhile isWhiteSpace s).isEmpty = true
  · rw [if_pos h]
    have h1 : List.dropWhile isWhiteSpace post = [] := List.dropWhile_eq_nil_iff.mpr hpost
    have h2 : List.dropWhile isWhiteSpace s = [] := List.isEmpty_iff.mp h
    rw [h1, h2]
  · rw [if_neg h]
    exact trimEnd_append_whiteSpace _ _ hpost

theorem analyzeBody_response (env : AnalyzeEnv) (st : Store) (user : User) (file : UploadedFile)
    (jd : JsString) :
    (∃ e, (analyzeBody env st user file jd).response = analysisFailed e) ∨
    (analyzeBody env st user file jd).response = failure 400 "Could not extract text from file" ∨
    (∃ id s m g c, (analyzeBody env st user file jd).response = ⟨200, Body.analysis id s m g c⟩) := by
  rcases analyzeBody_cases env st user file jd _ rfl with
    ⟨e, -, h⟩ | ⟨t, -, -, h⟩ | ⟨text, -, -, ⟨e, -, h⟩ | ⟨analysis, -, h⟩⟩
  · left; exact ⟨e, by rw [h]⟩
  · right; left; rw [h]
  · left; exact ⟨e, by rw [h]⟩
  · rcases persist_cases env st user text jd analysis _ _ h.symm with
      ⟨e, h1, -⟩ | ⟨s, m, g, -, -, -, ⟨e, -, h1⟩ | ⟨id, -, h1⟩⟩
    · left; exact ⟨e, by rw [h1]⟩
    · left; exact ⟨e, by rw [h1]⟩
    · rcases applyCredits_cases env _ user id s m g _ _ h1.symm with
        ⟨-, ⟨-, -, -, -, ⟨e, -, hr⟩ | ⟨-, hr⟩⟩ | ⟨-, hr, -, -⟩ | ⟨-, hr, -, -⟩⟩
      · left; exact ⟨e, hr⟩
      · left; exact ⟨_, hr⟩
      · right; right; exact ⟨_, _, _, _, _, hr⟩
      · right; right; exact ⟨_, _, _, _, _, hr⟩

theorem analyze_too_short (env : AnalyzeEnv) (st : Store) (user : User) (file : UploadedFile)
    (jd : JsString) (h1 : 1 ≤ (trim jd).length) (h49 : (trim jd).length < 50) :
    analyze env st user (some file) (some jd) =
      ⟨⟨400, Body.failure "Job description too short (min 50 characters)" none⟩, st, []⟩ := by
  have hne : (trim jd).isEmpty = false := by
    cases h : trim jd with
    | nil => rw [h] at h1; simp at h1
    | cons a l => rfl
  simp [analyze, isBlank, hne, h49, failure]

/-- Claim C6: The job description boundary: with a file, a job description whose trimmed
length is `n`, padded by any white space `pre` and `post`, is answered 400
"Job description too short (min 50 characters)" with nothing done when
`1 ≤ n ≤ 49`; when `50 ≤ n` the request goes on to the quota gate and the
`try` block, and its response is neither "Job description required" nor
"Job description too short (min 50 characters)". -/
theorem analyze_job_description_boundary (env : AnalyzeEnv) (st : Store) (user : User)
    (file : UploadedFile) (pre jd post : JsString) (n : Nat)
    (hpre : ∀ u ∈ pre, isWhiteSpace u = true) (hpost : ∀ u ∈ post, isWhiteSpace u = true)
    (hn : (trim jd).length = n) :
    (trim (pre ++ jd ++ post)).length = n ∧
    (1 ≤ n → n ≤ 49 →
      analyze env st user (some file) (some (pre ++ jd ++ post)) =
        ⟨⟨400, Body.failure "Job description too short (min 50 characters)" none⟩, st, []⟩) ∧
    (50 ≤ n →
      analyze env st user (some file) (some (pre ++ jd ++ post)) =
        (if user.plan = "FREE" ∧ user.creditsRemaining ≤ 0 then
          ⟨⟨403, Body.failure "No credits remaining. Please upgrade to Pro." none⟩, st, []⟩
        else analyzeBody env st user file (pre ++ jd ++ post)) ∧
      (analyze env st user (some file) (some (pre ++ jd ++ post))).response ≠
        ⟨400, Body.failure "Job description required" none⟩ ∧
      (analyze env st user (some file) (some (pre ++ jd ++ post))).response ≠
        ⟨400, Body.failure "Job description too short (min 50 characters)" none⟩) := by
  have htrim : trim (pre ++ jd ++ post) = trim jd := trim_padding pre jd post hpre hpost
  refine ⟨by rw [htrim, hn], ?_, ?_⟩
  · intro h1 h49
    exact analyze_too_short env st user file _ (by rw [htrim, hn]; exact h1)
      (by rw [htrim, hn]; omega)
  · intro h50
    have hlen : 50 ≤ (trim (pre ++ jd ++ post)).length := by rw [htrim, hn]; exact h50
    have hgo := analyze_valid_inputs env st user file (pre ++ jd ++ post) hlen
    refine ⟨hgo, ?_, ?_⟩
    all_goals
      rw [hgo]
      split
      · simp [failure]
      · rcases analyzeBody_response env st user file (pre ++ jd ++ post) with
          ⟨e, h⟩ | h | ⟨id, s, m, g, c, h⟩
        · rw [h]; simp [analysisFailed]
        · rw [h]; simp [failure]
        · rw [h]; simp

theorem findById_map_setCredits (users : List User) (id : Nat) (c : Int)
    (h : (users.find? (fun u => u.id == id)).isSome) :
    ((users.map (setCredits id c)).find? (fun u => u.id == id)).map (·.creditsRemaining) =
      some c := by
  induction users with
  | nil => simp at h
  | cons u rest ih =>
    rw [List.map_cons, List.find?_cons]
    by_cases hu : u.id = id
    · have h1 : ((setCredits id c u).id == id) = true := by simp [setCredits, hu]
      rw [h1]
      simp [setCredits, hu]
    · have h1 : ((setCredits id c u).id == id) = false := by simp [setCredits, hu]
      rw [h1]
      rw [List.find?_cons] at h
      have h2 : (u.id == id) = false := by simp [hu]
      rw [h2] at h
      exact ih h

theorem getAtsAnalysis_calls (env : AnalyzeEnv) (text jd : JsString) :
    (getAtsAnalysis env text jd).2 = [Call.chatCompletion systemPrompt (userPrompt text jd)] := by
  unfold getAtsAnalysis
  cases env.completion <;> rfl

/-- A request with valid inputs whose extraction and scoring succeed reaches
`persist` with the extractor call and the scorer call made. -/
theorem analyze_reaches_persist (env : AnalyzeEnv) (st : Store) (user : User)
    (file : UploadedFile) (jd text : JsString) (analysis : Json)
    (hlen : 50 ≤ (trim jd).length)
    (hgate : ¬ (user.plan = "FREE" ∧ user.creditsRemaining ≤ 0))
    (hext : (parseDocument env file).1 = Except.ok (some text)) (htext : trim text ≠ [])
    (hscore : (getAtsAnalysis env text jd).1 = Except.ok analysis) :
    analyze env st user (some file) (some jd) =
      persist env st user text jd analysis
        ((parseDocument env file).2 ++
          [Call.chatCompletion systemPrompt (userPrompt text jd)]) := by
  rw [analyze_valid_inputs env st user file jd hlen, if_neg hgate]
  have hb : isBlank (some text) = false := by simpa [isBlank] using htext
  unfold analyzeBody
  rcases hp : parseDocument env file with ⟨r, calls⟩
  rw [hp] at hext
  simp only at hext
  subst hext
  simp only [hb, Option.getD_some]
  rcases hg : getAtsAnalysis env text jd with ⟨r2, calls2⟩
  rw [hg] at hscore
  simp only at hscore
  subst hscore
  have hcalls : calls2 = [Call.chatCompletion systemPrompt (userPrompt text jd)] := by
    have := getAtsAnalysis_calls env text jd
    rw [hg] at this
    exact this
  simp [hcalls]

/-- Claim C2: A FREE account with `c ≥ 1` credits, valid inputs, an extraction that gives
non-blank text, a scorer result whose `score`, `missingKeywords` and
`suggestions` read as `s`, `m`, `g`, and two store writes that succeed: the
handler answers 200 with those three values and `creditsRemaining = c - 1`,
appends exactly one Analysis Record (owned by the account, holding the
extracted text, the job description and `s`, `m`, `g`), makes one create and
one update call, and leaves the account stored with `c - 1` credits. -/
theorem analyze_free_success (env : AnalyzeEnv) (st : Store) (user : User)
    (file : UploadedFile) (jd text : JsString) (analysis : Json) (s m g : Option Json)
    (id : Nat) (c : Int)
    (hlen : 50 ≤ (trim jd).length)
    (hplan : user.plan = "FREE") (hc : user.creditsRemaining = c) (hpos : 1 ≤ c)
    (hstored : (st.findById user.id).isSome)
    (hext : (parseDocument env file).1 = Except.ok (some text)) (htext : trim text ≠ [])
    (hscore : (getAtsAnalysis env text jd).1 = Except.ok analysis)
    (hs : getProperty analysis "score" = Except.ok s)
    (hm : getProperty analysis "missingKeywords" = Except.ok m)
    (hg : getProperty analysis "suggestions" = Except.ok g)
    (hcreate : env.analysisCreate = Except.ok id)
    (hupdate : env.userUpdate = Except.ok ()) :
    (analyze env st user (some file) (some jd)).response =
      ⟨200, Body.analysis id s m g (c - 1)⟩ ∧
    (analyze env st user (some file) (some jd)).store.analyses =
      st.analyses ++ [⟨id, ⟨user.id, text, jd, s, m, g⟩⟩] ∧
    (analyze env st user (some file) (some jd)).calls =
      (parseDocument env file).2 ++
        [Call.chatCompletion systemPrompt (userPrompt text jd),
          Call.analysisCreate ⟨user.id, text, jd, s, m, g⟩,
          Call.userUpdate user.id (c - 1)] ∧
    (analyze env st user (some file) (some jd)).store.users =
      st.users.map (setCredits user.id (c - 1)) ∧
    ((analyze env st user (some file) (some jd)).store.findById user.id).map
      (·.creditsRemaining) = some (c - 1) := by
  have hgate : ¬ (user.plan = "FREE" ∧ user.creditsRemaining ≤ 0) := by
    intro h; omega
  rw [analyze_reaches_persist env st user file jd text analysis hlen hgate hext htext hscore]
  obtain ⟨st1, hst1⟩ := updateCredits_isSome st user.id (c - 1) hstored
  have hst1' := updateCredits_eq_some hst1
  have hupd : Store.updateCredits
      { users := st.users, analyses := st.analyses ++ [⟨id, ⟨user.id, text, jd, s, m, g⟩⟩] }
      user.id (c - 1) =
      some { users := st.users.map (setCredits user.id (c - 1)),
             analyses := st.analyses ++ [⟨id, ⟨user.id, text, jd, s, m, g⟩⟩] } := by
    unfold Store.updateCredits at hst1 ⊢
    split at hst1
    · rename_i hany
      simp [hany]
    · cases hst1
  simp only [persist, hs, hm, hg, hcreate, applyCredits, hplan, if_true, hupdate, hc, hupd]
  refine ⟨trivial, trivial, by simp, trivial, ?_⟩
  exact findById_map_setCredits st.users user.id (c - 1) hstored

/-- Claim C7: An account whose plan is not FREE, whatever its stored credits: a request
with valid inputs goes past the quota gate into the `try` block and is not
answered 403; when extraction, scoring and the create succeed the handler
answers 200 with `creditsRemaining = 999`, makes no `user.update` call and
leaves every account as stored. -/
theorem analyze_pro_unmetered (env : AnalyzeEnv) (st : Store) (user : User)
    (file : UploadedFile) (jd : JsString)
    (hlen : 50 ≤ (trim jd).length) (hplan : user.plan ≠ "FREE") :
    analyze env st user (some file) (some jd) = analyzeBody env st user file jd ∧
    (analyze env st user (some file) (some jd)).response.status ≠ 403 ∧
    (∀ (text : JsString) (analysis : Json) (s m g : Option Json) (id : Nat),
      (parseDocument env file).1 = Except.ok (some text) → trim text ≠ [] →
      (getAtsAnalysis env text jd).1 = Except.ok analysis →
      getProperty analysis "score" = Except.ok s →
      getProperty analysis "missingKeywords" = Except.ok m →
      getProperty analysis "suggestions" = Except.ok g →
      env.analysisCreate = Except.ok id →
      (analyze env st user (some file) (some jd)).response =
        ⟨200, Body.analysis id s m g 999⟩ ∧
      (analyze env st user (some file) (some jd)).store.users = st.users ∧
      (analyze env st user (some file) (some jd)).store.analyses =
        st.analyses ++ [⟨id, ⟨user.id, text, jd, s, m, g⟩⟩] ∧
      (analyze env st user (some file) (some jd)).calls =
        (parseDocument env file).2 ++
          [Call.chatCompletion systemPrompt (userPrompt text jd),
            Call.analysisCreate ⟨user.id, text, jd, s, m, g⟩]) := by
  have hgate : ¬ (user.plan = "FREE" ∧ user.creditsRemaining ≤ 0) := fun h => hplan h.1
  have hgo : analyze env st user (some file) (some jd) = analyzeBody env st user file jd := by
    rw [analyze_valid_inputs env st user file jd hlen, if_neg hgate]
  refine ⟨hgo, ?_, ?_⟩
  · rw [hgo]
    rcases analyzeBody_response env st user file jd with ⟨e, h⟩ | h | ⟨id, s, m, g, c, h⟩
    · rw [h]; simp [analysisFailed]
    · rw [h]; simp [failure]
    · rw [h]; simp
  · intro text analysis s m g id hext htext hscore hs hm hg hcreate
    rw [analyze_reaches_persist env st user file jd text analysis hlen hgate hext htext hscore]
    simp [persist, hs, hm, hg, hcreate, applyCredits, hplan]

/-- Claim C10: A request whose response is not a success leaves every account as stored,
so the account's `creditsRemaining` is what it was; and it leaves the Analysis
Records as stored too, unless the plan is FREE, the last call made is the
credit update and that update failed (rejected, or no row of that id), in
which case exactly one record was appended. -/
theorem analyze_failure_keeps_credits (env : AnalyzeEnv) (st : Store) (user : User)
    (file : Option UploadedFile) (jd : Option JsString)
    (hfail : (analyze env st user file jd).response.success = false) :
    (analyze env st user file jd).store.users = st.users ∧
    ((analyze env st user file jd).store.findById user.id).map (·.creditsRemaining) =
      (st.findById user.id).map (·.creditsRemaining) ∧
    ((analyze env st user file jd).store.analyses = st.analyses ∨
      (user.plan = "FREE" ∧
        (∃ record, (analyze env st user file jd).store.analyses = st.analyses ++ [record]) ∧
        (analyze env st user file jd).calls.getLast? =
          some (Call.userUpdate user.id (user.creditsRemaining - 1)) ∧
        ((∃ e, env.userUpdate = Except.error e) ∨ st.findById user.id = none))) := by
  rcases analyze_summary env st user file jd _ rfl with
    ⟨-, hst⟩ | ⟨-, hp, hu, hrec, hlast, hwhy⟩ | ⟨hs, -⟩
  · rw [hst]; exact ⟨rfl, rfl, Or.inl rfl⟩
  · refine ⟨hu, ?_, Or.inr ⟨hp, hrec, hlast, hwhy⟩⟩
    unfold Store.findById
    rw [hu]
  · rw [hs] at hfail; cases hfail

/-! ## The credit bound over a run of requests -/

theorem signup_users (env : AuthEnv) (st : Store) (req : AuthRequest) :
    (signup env st req).store.users = st.users ∨
    ∃ id hashed, (signup env st req).store.users =
      st.users ++ [⟨id, req.email, hashed, nameOrNull req.name, "FREE", 3⟩] := by
  unfold signup
  split
  · left; rfl
  · simp only
    split
    · left; rfl
    · split
      · left; rfl
      · split
        · left; rfl
        · split
          · left; rfl
          · rename_i hashed _ _ id _
            right
            refine ⟨id, hashed, ?_⟩
            split <;> rfl

theorem login_store (env : AuthEnv) (st : Store) (req : AuthRequest) :
    (login env st req).store = st := by
  unfold login
  split
  · rfl
  · simp only
    split
    · rfl
    · split
      · rfl
      · split
        · rfl
        · split
          · rfl
          · split <;> rfl

theorem serve_creditsBounded (st : Store) (r : Request) (h : CreditsBounded st) :
    CreditsBounded (serve st r) := by
  cases r with
  | signup env req =>
    show CreditsBounded (signup env st req).store
    rcases signup_users env st req with hu | ⟨id, hashed, hu⟩
    · intro u hmem; rw [hu] at hmem; exact h u hmem
    · intro u hmem hp
      rw [hu, List.mem_append, List.mem_singleton] at hmem
      rcases hmem with hmem | rfl
      · exact h u hmem hp
      · exact ⟨by simp, by simp⟩
  | login env req =>
    show CreditsBounded (login env st req).store
    rw [login_store]; exact h
  | analyze env claims file jd =>
    have hserve : serve st (Request.analyze env claims file jd) =
        match authMiddleware st claims with
        | none => st
        | some user => (analyze env st user file jd).store := rfl
    rw [hserve]
    cases hauth : authMiddleware st claims with
    | none => exact h
    | some user =>
      show CreditsBounded (analyze env st user file jd).store
      have huser : user ∈ st.users := by
        unfold authMiddleware at hauth
        cases claims with
        | none => cases hauth
        | some id => exact List.mem_of_find?_eq_some hauth
      rcases analyze_summary env st user file jd _ rfl with
        ⟨-, hst⟩ | ⟨-, -, hu, -⟩ | ⟨-, -, ⟨-, hu⟩ | ⟨hp, hpos, hu⟩⟩
      · rw [hst]; exact h
      · intro u hmem; rw [hu] at hmem; exact h u hmem
      · intro u hmem; rw [hu] at hmem; exact h u hmem
      · have hb := h user huser hp
        intro u hmem hfree
        rw [hu, List.mem_map] at hmem
        obtain ⟨v, hv, rfl⟩ := hmem
        unfold setCredits at hfree ⊢
        split
        · simp only; omega
        · rename_i hne
          rw [if_neg hne] at hfree
          exact h v hv hfree

theorem serveAll_creditsBounded (reqs : List Request) (st : Store) (h : CreditsBounded st) :
    CreditsBounded (serveAll st reqs) := by
  induction reqs generalizing st with
  | nil => exact h
  | cons r rest ih => exact ih (serve st r) (serve_creditsBounded st r h)

/-- Claim C3: starting from the empty database and handling signup, login and analyze
requests one at a time, each analyze request being given the account as
stored when it starts, after every request (after the first `k` of them, for
every `k`) every stored account whose plan is FREE has `creditsRemaining`
between 0 and 3. -/
theorem credits_stay_within_bounds (reqs : List Request) (k : Nat) :
    ∀ u ∈ (serveAll emptyStore (reqs.take k)).users,
      u.plan = "FREE" → 0 ≤ u.creditsRemaining ∧ u.creditsRemaining ≤ 3 :=
  serveAll_creditsBounded (reqs.take k) emptyStore (fun u hu => by cases hu)

/-- Where the password is a string that `bcrypt.compare` finds wrong, an
unknown email and a known email are answered alike: 401 with the body
`{success: false, error: "Invalid credentials"}` and no token. -/
theorem login_wrong_string_password (env1 env2 : AuthEnv) (st1 st2 : Store)
    (req : AuthRequest) (user : User) (pw : JsString)
    (hvalid : req.errors = []) (hstring : req.password = Json.str pw)
    (hdb1 : env1.findUnique = Except.ok ()) (hdb2 : env2.findUnique = Except.ok ())
    (hunknown : st1.findByEmail req.email = none)
    (hknown : st2.findByEmail req.email = some user)
    (hwrong : env2.compare pw user.password = Except.ok false) :
    (login env1 st1 req).response = ⟨401, Body.failure "Invalid credentials" none⟩ ∧
    (login env2 st2 req).response = ⟨401, Body.failure "Invalid credentials" none⟩ := by
  constructor
  · simp [login, hvalid, hdb1, hunknown, failure]
  · simp [login, hvalid, hdb2, hknown, bcryptCompare, hstring, hwrong, failure]

/-- Claim C9, at a failing input: the login body
`{"email": "jane@example.com", "password": 12345}` passes validation
(`exists()` asks for no string).  With no account of that email the answer is
401 "Invalid credentials"; with an account of that email `bcrypt.compare`
rejects the number, the `catch` block answers 500 "Login failed", and the two
responses differ, so the caller learns whether the email is registered. -/
theorem login_number_password_reveals_account :
    sampleNumberLogin.errors = [] ∧
    emptyStore.findByEmail sampleNumberLogin.email = none ∧
    (sampleStore "FREE" 3).findByEmail sampleNumberLogin.email = some (sampleUser "FREE" 3) ∧
    (login sampleAuthEnv emptyStore sampleNumberLogin).response =
      ⟨401, Body.failure "Invalid credentials" none⟩ ∧
    (login sampleAuthEnv (sampleStore "FREE" 3) sampleNumberLogin).response =
      ⟨500, Body.failure "Login failed" none⟩ ∧
    (login sampleAuthEnv emptyStore sampleNumberLogin).response ≠
      (login sampleAuthEnv (sampleStore "FREE" 3) sampleNumberLogin).response := by
  have h1 : (login sampleAuthEnv emptyStore sampleNumberLogin).response =
      ⟨401, Body.failure "Invalid credentials" none⟩ := by rfl
  have h2 : (login sampleAuthEnv (sampleStore "FREE" 3) sampleNumberLogin).response =
      ⟨500, Body.failure "Login failed" none⟩ := by rfl
  refine ⟨rfl, rfl, rfl, h1, h2, ?_⟩
  rw [h1, h2]
  intro h
  simp at h

/-! ## Fence stripping -/

theorem fenceMatch_eq_none {s : JsString} (h1 : ticks.isPrefixOf s = false)
    (h2 : (lineFeed ++ ticks).isPrefixOf s = false) : fenceMatch s = none := by
  simp [fenceMatch, matchOpeningFence, matchClosingFence, h1, h2]

/-- Where the pattern matches at no position of `s` continued by `tail`, the
replace keeps `s` and goes on with `tail`. -/
theorem stripFences_keep (s tail : JsString)
    (h : ∀ t, t ≠ [] → t <:+ s → fenceMatch (t ++ tail) = none) :
    stripFences 0 (s ++ tail) = s ++ stripFences 0 tail := by
  induction s with
  | nil => rfl
  | cons c rest ih =>
    have hc : fenceMatch (c :: (rest ++ tail)) = none :=
      h (c :: rest) (by simp) (List.suffix_refl _)
    have hrest : stripFences 0 (rest ++ tail) = rest ++ stripFences 0 tail :=
      ih (fun t ht hs => h t ht (hs.trans (List.suffix_cons c rest)))
    show stripFences 0 (c :: (rest ++ tail)) = c :: (rest ++ stripFences 0 tail)
    rw [stripFences, hc, hrest]

/-- In a string without three backticks in a row the pattern matches nowhere,
also when the string is followed by a line feed and a closing fence. -/
theorem fenceMatch_inside (j t : JsString) (hj : ¬ ticks <:+: j) (ht : t ≠ []) (hs : t <:+ j) :
    fenceMatch (t ++ (lineFeed ++ ticks)) = none ∧ fenceMatch (t ++ []) = none := by
  have hpre : ∀ r, r <:+ t → ticks.isPrefixOf r = false := by
    intro r hr
    cases hp : ticks.isPrefixOf r with
    | false => rfl
    | true =>
      exfalso
      apply hj
      rw [List.infix_iff_prefix_suffix]
      exact ⟨r, List.isPrefixOf_iff_prefix.mp hp, hr.trans hs⟩
  rcases t with _ | ⟨a, _ | ⟨b, _ | ⟨c, _ | ⟨d, r⟩⟩⟩⟩
  · exact absurd rfl ht
  · constructor
    · apply fenceMatch_eq_none <;> simp [ticks, lineFeed, List.isPrefixOf]
    · apply fenceMatch_eq_none <;> simp [ticks, lineFeed, List.isPrefixOf]
  · constructor
    · apply fenceMatch_eq_none <;> simp [ticks, lineFeed, List.isPrefixOf]
    · apply fenceMatch_eq_none <;> simp [ticks, lineFeed, List.isPrefixOf]
  · have h0 := hpre [a, b, c] (List.suffix_refl _)
    simp [ticks, List.isPrefixOf] at h0
    constructor
    · apply fenceMatch_eq_none
      · simpa [ticks, lineFeed, List.isPrefixOf] using h0
      · simp [ticks, lineFeed, List.isPrefixOf]
    · apply fenceMatch_eq_none
      · simpa [ticks, lineFeed, List.isPrefixOf] using h0
      · simp [ticks, lineFeed, List.isPrefixOf]
  · have h0 := hpre (a :: b :: c :: d :: r) (List.suffix_refl _)
    have h1 := hpre (b :: c :: d :: r) (List.suffix_cons a _)
    simp [ticks, List.isPrefixOf] at h0 h1
    constructor
    · apply fenceMatch_eq_none
      · simpa [ticks, lineFeed, List.isPrefixOf] using h0
      · simpa [ticks, lineFeed, List.isPrefixOf] using fun _ => h1
    · apply fenceMatch_eq_none
      · simpa [ticks, lineFeed, List.isPrefixOf] using h0
      · simpa [ticks, lineFeed, List.isPrefixOf] using fun _ => h1

theorem stripFences_no_ticks (j : JsString) (hj : ¬ ticks <:+: j) :
    stripFences 0 (j ++ (lineFeed ++ ticks)) = j ∧ stripFences 0 j = j := by
  constructor
  · rw [stripFences_keep j _ (fun t ht hs => (fenceMatch_inside j t hj ht hs).1)]
    show j ++ [] = j
    simp
  · have := stripFences_keep j [] (fun t ht hs => (fenceMatch_inside j t hj ht hs).2)
    simpa [stripFences] using this

theorem stripFences_opening (rest : JsString) :
    stripFences 0 (96 :: 96 :: 96 :: 106 :: 115 :: 111 :: 110 :: 10 :: rest) =
      stripFences 0 rest ∧
    stripFences 0 (96 :: 96 :: 96 :: 10 :: rest) = stripFences 0 rest := by
  constructor
  · have hm : fenceMatch (96 :: 96 :: 96 :: 106 :: 115 :: 111 :: 110 :: 10 :: rest) =
        some (7 + 1) := by
      simp [fenceMatch, matchOpeningFence, optionalLength, ticks, jsonWord, lineFeed,
        List.isPrefixOf]
    rw [stripFences, hm]
    simp only [stripFences]
  · have hm : fenceMatch (96 :: 96 :: 96 :: 10 :: rest) = some (3 + 1) := by
      simp [fenceMatch, matchOpeningFence, optionalLength, ticks, jsonWord, lineFeed,
        List.isPrefixOf]
    rw [stripFences, hm]
    simp only [stripFences]

/-- Claim C8: for a string `j` without three backticks in a row, the reply that wraps `j`
in a `json` fence and the reply that wraps it in a bare fence are both
cleaned to `trim j`, as is `j` itself (a reply without three backticks is
changed by the trim only); so the three replies decode alike, to the same
value or the same failure. -/
theorem cleanReply_fenced (j : JsString) (hj : ¬ ticks <:+: j) :
    cleanReply (utf16 "```json\n" ++ j ++ utf16 "\n```") = trim j ∧
    cleanReply (utf16 "```\n" ++ j ++ utf16 "\n```") = trim j ∧
    cleanReply j = trim j ∧
    decodeReply (some (utf16 "```json\n" ++ j ++ utf16 "\n```")) = decodeReply (some j) ∧
    decodeReply (some (utf16 "```\n" ++ j ++ utf16 "\n```")) = decodeReply (some j) := by
  have hopen1 : utf16 "```json\n" = [96, 96, 96, 106, 115, 111, 110, 10] := by decide
  have hopen2 : utf16 "```\n" = [96, 96, 96, 10] := by decide
  have hclose : utf16 "\n```" = lineFeed ++ ticks := by decide
  have hs := stripFences_no_ticks j hj
  have h1 : cleanReply (utf16 "```json\n" ++ j ++ utf16 "\n```") = trim j := by
    rw [hopen1, hclose, List.append_assoc]
    unfold cleanReply
    show trim (stripFences 0 (96 :: 96 :: 96 :: 106 :: 115 :: 111 :: 110 :: 10 ::
      (j ++ (lineFeed ++ ticks)))) = _
    rw [(stripFences_opening _).1, hs.1]
  have h2 : cleanReply (utf16 "```\n" ++ j ++ utf16 "\n```") = trim j := by
    rw [hopen2, hclose, List.append_assoc]
    unfold cleanReply
    show trim (stripFences 0 (96 :: 96 :: 96 :: 10 :: (j ++ (lineFeed ++ ticks)))) = _
    rw [(stripFences_opening _).2, hs.1]
  have h3 : cleanReply j = trim j := by
    unfold cleanReply
    rw [hs.2]
  refine ⟨h1, h2, h3, ?_, ?_⟩
  · simp only [decodeReply, h1, h3]
  · simp only [decodeReply, h2, h3]

/-! ## Errors of the scorer reply and of the outside calls -/

/-- Claim C4, at a failing input: the chat completion rejects, once with one message and
once with another, everything else being equal; each response carries the
message of its error in `message`, so the two responses differ. -/
theorem analyze_failure_returns_error_message :
    (analyze (scorerDownEnv "Incorrect API key provided: sk-live-1") (sampleStore "FREE" 3)
        (sampleUser "FREE" 3) (some sampleFile) (some sampleJobDescription)).response =
      ⟨500, Body.failure "Analysis failed"
        (some (JsError.external "Incorrect API key provided: sk-live-1"))⟩ ∧
    (analyze (scorerDownEnv "Rate limit reached for gpt-4o-mini") (sampleStore "FREE" 3)
        (sampleUser "FREE" 3) (some sampleFile) (some sampleJobDescription)).response =
      ⟨500, Body.failure "Analysis failed"
        (some (JsError.external "Rate limit reached for gpt-4o-mini"))⟩ ∧
    (analyze (scorerDownEnv "Incorrect API key provided: sk-live-1") (sampleStore "FREE" 3)
        (sampleUser "FREE" 3) (some sampleFile) (some sampleJobDescription)).response ≠
      (analyze (scorerDownEnv "Rate limit reached for gpt-4o-mini") (sampleStore "FREE" 3)
        (sampleUser "FREE" 3) (some sampleFile) (some sampleJobDescription)).response := by
  have h1 : (analyze (scorerDownEnv "Incorrect API key provided: sk-live-1")
      (sampleStore "FREE" 3) (sampleUser "FREE" 3) (some sampleFile)
      (some sampleJobDescription)).response =
      ⟨500, Body.failure "Analysis failed"
        (some (JsError.external "Incorrect API key provided: sk-live-1"))⟩ := by rfl
  have h2 : (analyze (scorerDownEnv "Rate limit reached for gpt-4o-mini")
      (sampleStore "FREE" 3) (sampleUser "FREE" 3) (some sampleFile)
      (some sampleJobDescription)).response =
      ⟨500, Body.failure "Analysis failed"
        (some (JsError.external "Rate limit reached for gpt-4o-mini"))⟩ := by rfl
  refine ⟨h1, h2, ?_⟩
  rw [h1, h2]
  intro h
  simp at h

/-- Claim C5, as stated, fails: the reply `{}` is valid JSON without `score`,
`missingKeywords` or `suggestions`, and `getAtsAnalysis` returns it. -/
theorem getAtsAnalysis_returns_reply_without_fields :
    ¬ (∀ (env : AnalyzeEnv) (raw resume description : JsString) (v : Json),
        env.completion = Except.ok (some raw) → jsonParse (cleanReply raw) = some v →
        (getProperty v "score" = Except.ok none ∨
          getProperty v "missingKeywords" = Except.ok none ∨
          getProperty v "suggestions" = Except.ok none) →
        ∃ e, (getAtsAnalysis env resume description).1 = Except.error e) := by
  intro h
  obtain ⟨e, he⟩ := h (replyEnv (utf16 "\x7b\x7d")) (utf16 "\x7b\x7d") sampleResume
    sampleJobDescription (Json.obj []) rfl rfl (Or.inl rfl)
  have hok : (getAtsAnalysis (replyEnv (utf16 "\x7b\x7d")) sampleResume
      sampleJobDescription).1 = Except.ok (Json.obj []) := rfl
  rw [hok] at he
  cases he

/-- When the scorer client fails on every input, the handler answers no
success and leaves the database as it was. -/
theorem analyze_of_scorer_failure (env : AnalyzeEnv) (err : JsError)
    (hget : ∀ resume description, (getAtsAnalysis env resume description).1 = Except.error err)
    (st : Store) (user : User) (file : Option UploadedFile) (jd : Option JsString) :
    (analyze env st user file jd).response.success = false ∧
    (analyze env st user file jd).store = st := by
  unfold analyze
  cases file with
  | none => exact ⟨rfl, rfl⟩
  | some f =>
    simp only
    split
    · exact ⟨rfl, rfl⟩
    · split
      · exact ⟨rfl, rfl⟩
      · split
        · exact ⟨rfl, rfl⟩
        · rcases analyzeBody_cases env st user f _ _ rfl with
            ⟨e, -, h⟩ | ⟨t, -, -, h⟩ | ⟨text, -, -, ⟨e, -, h⟩ | ⟨analysis, hok, -⟩⟩
          · rw [h]; exact ⟨rfl, rfl⟩
          · rw [h]; exact ⟨rfl, rfl⟩
          · rw [h]; exact ⟨rfl, rfl⟩
          · rw [hget] at hok; cases hok

/-- Claim C5, amended: when the cleaned reply is not valid JSON, `getAtsAnalysis` fails
with the `SyntaxError` of `JSON.parse`, and the handler, whatever the request,
answers no success and leaves the database as it was; when the cleaned reply
is valid JSON, `getAtsAnalysis` returns the decoded value as it is, whichever
members it has. -/
theorem getAtsAnalysis_fails_on_invalid_json (env : AnalyzeEnv) (raw : JsString)
    (hraw : env.completion = Except.ok (some raw)) :
    (jsonParse (cleanReply raw) = none →
      (∀ resume description, (getAtsAnalysis env resume description).1 =
        Except.error (JsError.syntaxError (cleanReply raw))) ∧
      (∀ st user file jd, (analyze env st user file jd).response.success = false ∧
        (analyze env st user file jd).store = st)) ∧
    (∀ v, jsonParse (cleanReply raw) = some v →
      ∀ resume description, (getAtsAnalysis env resume description).1 = Except.ok v) := by
  constructor
  · intro hbad
    have hget : ∀ resume description, (getAtsAnalysis env resume description).1 =
        Except.error (JsError.syntaxError (cleanReply raw)) := by
      intro resume description
      simp [getAtsAnalysis, hraw, decodeReply, hbad]
    refine ⟨hget, ?_⟩
    exact analyze_of_scorer_failure env _ hget
  · intro v hv resume description
    simp [getAtsAnalysis, hraw, decodeReply, hv]

/-! ## The theorems at sample requests -/

/-- The quota gate at a FREE account with no credit left. -/
theorem analyze_quota_exhausted_witness :
    (analyze sampleEnv (sampleStore "FREE" 0) (sampleUser "FREE" 0) (some sampleFile)
        (some sampleJobDescription)).response =
      ⟨403, Body.failure "No credits remaining. Please upgrade to Pro." none⟩ ∧
    (analyze sampleEnv (sampleStore "FREE" 0) (sampleUser "FREE" 0) (some sampleFile)
        (some sampleJobDescription)).calls = [] :=
  ⟨(analyze_quota_exhausted sampleEnv (sampleStore "FREE" 0) (sampleUser "FREE" 0) sampleFile
      sampleJobDescription (by decide) rfl (by decide)).1,
    (analyze_quota_exhausted sampleEnv (sampleStore "FREE" 0) (sampleUser "FREE" 0) sampleFile
      sampleJobDescription (by decide) rfl (by decide)).2.1⟩

/-- A FREE account with one credit, after one successful analysis. -/
theorem analyze_free_success_witness :
    (analyze sampleEnv (sampleStore "FREE" 1) (sampleUser "FREE" 1) (some sampleFile)
        (some sampleJobDescription)).response =
      ⟨200, Body.analysis 7 (some (Json.num 72 0))
        (some (Json.arr [Json.str (utf16 "Docker")]))
        (some (Json.arr [Json.str (utf16 "Mention REST APIs")])) 0⟩ ∧
    ((analyze sampleEnv (sampleStore "FREE" 1) (sampleUser "FREE" 1) (some sampleFile)
        (some sampleJobDescription)).store.findById 5).map (·.creditsRemaining) = some 0 :=
  ⟨(analyze_free_success sampleEnv (sampleStore "FREE" 1) (sampleUser "FREE" 1) sampleFile
      sampleJobDescription sampleResume sampleAnalysis (some (Json.num 72 0))
      (some (Json.arr [Json.str (utf16 "Docker")]))
      (some (Json.arr [Json.str (utf16 "Mention REST APIs")])) 7 1
      (by decide) rfl rfl (by decide) rfl rfl (by decide) rfl rfl rfl rfl rfl rfl).1,
    (analyze_free_success sampleEnv (sampleStore "FREE" 1) (sampleUser "FREE" 1) sampleFile
      sampleJobDescription sampleResume sampleAnalysis (some (Json.num 72 0))
      (some (Json.arr [Json.str (utf16 "Docker")]))
      (some (Json.arr [Json.str (utf16 "Mention REST APIs")])) 7 1
      (by decide) rfl rfl (by decide) rfl rfl (by decide) rfl rfl rfl rfl rfl rfl).2.2.2.2⟩

/-- The account created by a signup, after four analyses: the fourth is
refused and the account stays at 0 credits. -/
theorem credits_stay_within_bounds_witness :
    sampleUser "FREE" 0 ∈ (serveAll emptyStore (sampleRun.take 5)).users ∧
    (0 : Int) ≤ 0 ∧ (0 : Int) ≤ 3 :=
  ⟨by decide, credits_stay_within_bounds sampleRun 5 (sampleUser "FREE" 0) (by decide) rfl⟩

/-- A padded job description of 49 units is too short, one of 50 units is not. -/
theorem analyze_job_description_boundary_witness :
    analyze sampleEnv (sampleStore "FREE" 3) (sampleUser "FREE" 3) (some sampleFile)
        (some (utf16 " \n" ++ sampleShortDescription ++ utf16 "\t ")) =
      ⟨⟨400, Body.failure "Job description too short (min 50 characters)" none⟩,
        sampleStore "FREE" 3, []⟩ ∧
    (analyze sampleEnv (sampleStore "FREE" 3) (sampleUser "FREE" 3) (some sampleFile)
        (some (utf16 " \n" ++ sampleBoundaryDescription ++ utf16 "\t "))).response ≠
      ⟨400, Body.failure "Job description too short (min 50 characters)" none⟩ :=
  ⟨(analyze_job_description_boundary sampleEnv (sampleStore "FREE" 3) (sampleUser "FREE" 3)
      sampleFile (utf16 " \n") sampleShortDescription (utf16 "\t ") 49 (by decide) (by decide)
      (by decide)).2.1 (by decide) (by decide),
    ((analyze_job_description_boundary sampleEnv (sampleStore "FREE" 3) (sampleUser "FREE" 3)
      sampleFile (utf16 " \n") sampleBoundaryDescription (utf16 "\t ") 50 (by decide)
      (by decide) (by decide)).2.2 (by decide)).2.2⟩

/-- A PRO account with a negative credit count, after one successful analysis. -/
theorem analyze_pro_unmetered_witness :
    (analyze sampleEnv (sampleStore "PRO" (-2)) (sampleUser "PRO" (-2)) (some sampleFile)
        (some sampleJobDescription)).response =
      ⟨200, Body.analysis 7 (some (Json.num 72 0))
        (some (Json.arr [Json.str (utf16 "Docker")]))
        (some (Json.arr [Json.str (utf16 "Mention REST APIs")])) 999⟩ ∧
    (analyze sampleEnv (sampleStore "PRO" (-2)) (sampleUser "PRO" (-2)) (some sampleFile)
        (some sampleJobDescription)).store.users = [sampleUser "PRO" (-2)] :=
  ⟨((analyze_pro_unmetered sampleEnv (sampleStore "PRO" (-2)) (sampleUser "PRO" (-2))
      sampleFile sampleJobDescription (by decide) (by decide)).2.2 sampleResume sampleAnalysis
      (some (Json.num 72 0)) (some (Json.arr [Json.str (utf16 "Docker")]))
      (some (Json.arr [Json.str (utf16 "Mention REST APIs")])) 7
      rfl (by decide) rfl rfl rfl rfl rfl).1,
    ((analyze_pro_unmetered sampleEnv (sampleStore "PRO" (-2)) (sampleUser "PRO" (-2))
      sampleFile sampleJobDescription (by decide) (by decide)).2.2 sampleResume sampleAnalysis
      (some (Json.num 72 0)) (some (Json.arr [Json.str (utf16 "Docker")]))
      (some (Json.arr [Json.str (utf16 "Mention REST APIs")])) 7
      rfl (by decide) rfl rfl rfl rfl rfl).2.1⟩

/-- A fenced reply with blanks inside the fence. -/
theorem cleanReply_fenced_witness :
    cleanReply (utf16 "```json\n" ++ utf16 " \x7b\"score\": 72\x7d " ++ utf16 "\n```") =
      utf16 "\x7b\"score\": 72\x7d" :=
  (cleanReply_fenced (utf16 " \x7b\"score\": 72\x7d ") (by decide)).1

/-- A credit update that rejects, for a FREE account with one credit. -/
theorem analyze_failure_keeps_credits_witness :
    (analyze updateDownEnv (sampleStore "FREE" 1) (sampleUser "FREE" 1) (some sampleFile)
        (some sampleJobDescription)).store.users = [sampleUser "FREE" 1] :=
  (analyze_failure_keeps_credits updateDownEnv (sampleStore "FREE" 1) (sampleUser "FREE" 1)
    (some sampleFile) (some sampleJobDescription) rfl).1

/-- A reply in prose. -/
theorem getAtsAnalysis_fails_on_invalid_json_witness :
    (analyze (replyEnv (utf16 "Sorry, I cannot score this resume."))
        (sampleStore "FREE" 3) (sampleUser "FREE" 3) (some sampleFile)
        (some sampleJobDescription)).response.success = false ∧
    (analyze (replyEnv (utf16 "Sorry, I cannot score this resume."))
        (sampleStore "FREE" 3) (sampleUser "FREE" 3) (some sampleFile)
        (some sampleJobDescription)).store = sampleStore "FREE" 3 :=
  ((getAtsAnalysis_fails_on_invalid_json (replyEnv (utf16 "Sorry, I cannot score this resume."))
    (utf16 "Sorry, I cannot score this resume.") rfl).1 rfl).2 (sampleStore "FREE" 3)
    (sampleUser "FREE" 3) (some sampleFile) (some sampleJobDescription)

end ResumeOptimizer
